import Mathlib

/-!
Shallow embedding of the sbanszky/header4 reference-explorer application.

The repository contains four page variants, each a single React component
holding three pieces of mutable UI state (`isDarkMode`, `hoveredField`,
`hoveredLayer`) and fixed reference datasets (`ipv4Fields` / `ipv6Fields`,
`osiLayers`).  Rendering is a pure function of state plus the static data.

Variants and their Lean namespaces:
* `IPv6Page`   - src/app/page.tsx (`IPv6OSIApp`, list-style field cards)
* `IPv4Page`   - src/unnamed/part_000, first document (`IPv4OSIApp`,
  list-style field cards)
* `IPv6PageB`  - src/unnamed/part_000, second document (`IPv6OSIApp`)
* `IPv4Simple` - src/unnamed/part_001 (`IPv4OSIApp`, single detail panel
  derived with `ipv4Fields.find`)
-/

/-- Embeds the structurally identical `IPv4Field` and `IPv6Field` TypeScript
interfaces: `{name, bits, description, purpose, example?}`. -/
structure HeaderField where
  name : String
  bits : String
  description : String
  purpose : String
  «example» : Option String
deriving DecidableEq

/-- Embeds the `OSILayer` TypeScript interface.  The optional variant flag
(`isIPv4Layer?` in the IPv4 pages, `isIPv6Layer?` in the IPv6 pages) is
represented by the boolean `isFocusLayer`, absent meaning `false`. -/
structure OSILayer where
  number : Nat
  name : String
  description : String
  protocols : List String
  isFocusLayer : Bool := false
deriving DecidableEq

/-- The component state: the three `useState` hooks of every variant. -/
structure AppState where
  isDarkMode : Bool
  hoveredField : Option String
  hoveredLayer : Option Nat
deriving DecidableEq

/-- Embeds `toggleTheme = () => setIsDarkMode(!isDarkMode)`. -/
def toggleTheme (s : AppState) : AppState :=
  { s with isDarkMode := !s.isDarkMode }

/-- Embeds the `setHoveredField` state setter (stores its argument as-is). -/
def setHoveredField (x : Option String) (s : AppState) : AppState :=
  { s with hoveredField := x }

/-- Embeds the `setHoveredLayer` state setter (stores its argument as-is). -/
def setHoveredLayer (x : Option Nat) (s : AppState) : AppState :=
  { s with hoveredLayer := x }

/-- One rendered card of the always-visible field-explanations list; the
`highlighted` flag is the `hoveredField === field.name` class switch. -/
structure FieldCard where
  name : String
  bits : String
  description : String
  purpose : String
  «example» : Option String
  highlighted : Bool
deriving DecidableEq

/-- Embeds the list-style field-explanations rendering
`fields.map(field => <Card className={hoveredField === field.name ? highlighted : normal} ...>)`
used by the IPv6 page and the first IPv4 page. -/
def fieldCards (fields : List HeaderField) (s : AppState) : List FieldCard :=
  fields.map (fun f =>
    { name := f.name, bits := f.bits, description := f.description,
      purpose := f.purpose, «example» := f.«example»,
      highlighted := s.hoveredField == some f.name })

/-- Embeds the single detail panel of the simplified IPv4 page:
`hoveredField && (... ipv4Fields.find(f => f.name === hoveredField) ...)`,
where a failed lookup renders `null`.  The derivation is a total function
into `Option`; an unresolved name yields `none` rather than an error. -/
def fieldDetail (fields : List HeaderField) (s : AppState) : Option HeaderField :=
  match s.hoveredField with
  | none => none
  | some n => fields.find? (fun f => f.name == n)

/-- One rendered layer row of the "OSI Model" tab: `focusStyled` is the
`layer.isFocusLayer ? blue-border : gray-border` class switch, `focusBadge`
the conditionally rendered "IPv4 Layer"/"IPv6 Layer" badge, and `scaled`
the `hoveredLayer === layer.number` hover emphasis. -/
structure LayerCard where
  number : Nat
  name : String
  description : String
  protocols : List String
  focusStyled : Bool
  focusBadge : Bool
  scaled : Bool
deriving DecidableEq

/-- Embeds the "OSI Model" tab rendering `osiLayers.map(layer => ...)`. -/
def osiModelView (layers : List OSILayer) (s : AppState) : List LayerCard :=
  layers.map (fun l =>
    { number := l.number, name := l.name, description := l.description,
      protocols := l.protocols,
      focusStyled := l.isFocusLayer, focusBadge := l.isFocusLayer,
      scaled := s.hoveredLayer == some l.number })

/-- One row of an integration-tab layer list; `directionalLabel` is the
span rendered only when `layer.isFocusLayer`. -/
structure IntegrationEntry where
  number : Nat
  name : String
  directionalLabel : Option String
deriving DecidableEq

/-- Embeds the integration tab sending list
`osiLayers.slice().reverse().map(layer => ...)`: the reversed static array,
each focus layer annotated with the "Header Added" label.  The component
state is taken as an argument because the JSX closes over it, but the
markup of this section reads none of it. -/
def sendingView (layers : List OSILayer) (addedLabel : String) (_s : AppState) :
    List IntegrationEntry :=
  layers.reverse.map (fun l =>
    { number := l.number, name := l.name,
      directionalLabel := if l.isFocusLayer then some addedLabel else none })

/-- Embeds the integration tab receiving list `osiLayers.map(layer => ...)`:
the static array in stored order, each focus layer annotated with the
"Header Processed" label. -/
def receivingView (layers : List OSILayer) (processedLabel : String) (_s : AppState) :
    List IntegrationEntry :=
  layers.map (fun l =>
    { number := l.number, name := l.name,
      directionalLabel := if l.isFocusLayer then some processedLabel else none })

/-- The whole derived integration section: the pair of sending and
receiving lists. -/
def integrationView (layers : List OSILayer) (addedLabel processedLabel : String)
    (s : AppState) : List IntegrationEntry × List IntegrationEntry :=
  (sendingView layers addedLabel s, receivingView layers processedLabel s)

namespace IPv6Page

/-- The `ipv6Fields` dataset of src/app/page.tsx. -/
def ipv6Fields : List HeaderField := [
  { name := "Version", bits := "4 bits",
    description := "IP version number",
    purpose := "Identifies the IP version being used. For IPv6, this value is always 6.",
    «example» := some ("0110 (binary) = 6 (decimal)") },
  { name := "Traffic Class", bits := "8 bits",
    description := "Quality of Service (QoS) marking",
    purpose := "Similar to the Type of Service field in IPv4. Used for packet prioritization and congestion control. First 6 bits are DSCP, last 2 bits are ECN.",
    «example» := some ("00000000 = Normal service, 10111000 = Expedited Forwarding") },
  { name := "Flow Label", bits := "20 bits",
    description := "Packet flow identification",
    purpose := "Identifies packets that belong to the same flow, allowing routers to process related packets together. Helps with quality of service and real-time data.",
    «example» := some ("0x12345 (20-bit value)") },
  { name := "Payload Length", bits := "16 bits",
    description := "Length of payload",
    purpose := "Specifies the length of the payload (data after the IPv6 header) in bytes. Does not include the header itself.",
    «example» := some ("1440 bytes for a typical payload") },
  { name := "Next Header", bits := "8 bits",
    description := "Next header type",
    purpose := "Identifies the type of header immediately following the IPv6 header (TCP=6, UDP=17, ICMPv6=58).",
    «example» := some ("6 = TCP, 17 = UDP, 58 = ICMPv6") },
  { name := "Hop Limit", bits := "8 bits",
    description := "Maximum hops allowed",
    purpose := "Prevents infinite routing loops by limiting packet lifetime. Decremented at each hop, similar to TTL in IPv4.",
    «example» := some ("64 hops (common default)") },
  { name := "Source Address", bits := "128 bits",
    description := "Sender\x27s IPv6 address",
    purpose := "The IPv6 address of the device sending the packet. Four times larger than IPv4 addresses.",
    «example» := some ("2001:0db8:85a3:0000:0000:8a2e:0370:7334") },
  { name := "Destination Address", bits := "128 bits",
    description := "Receiver\x27s IPv6 address",
    purpose := "The IPv6 address of the device that should receive the packet. Four times larger than IPv4 addresses.",
    «example» := some ("2001:4860:4860::8888 (Google\x27s public DNS)") },
  { name := "Extension Headers", bits := "Variable",
    description := "Optional headers for special handling",
    purpose := "IPv6 uses extension headers instead of the options field in IPv4. These are placed between the IPv6 header and the upper-layer header. Common types include Hop-by-Hop Options, Routing, Fragment, Destination Options, Authentication, and Encapsulating Security Payload.",
    «example» := some ("Hop-by-Hop Options header (Next Header value = 0), Routing header (Next Header value = 43)") }]

/-- The `osiLayers` dataset of src/app/page.tsx (`isIPv6Layer` on layer 3). -/
def osiLayers : List OSILayer := [
  { number := 7, name := "Application Layer",
    description := "Network services to applications",
    protocols := ["HTTP", "HTTPS", "FTP", "SMTP", "DNS"] },
  { number := 6, name := "Presentation Layer",
    description := "Data translation, encryption, compression",
    protocols := ["SSL/TLS", "JPEG", "GIF", "ASCII"] },
  { number := 5, name := "Session Layer",
    description := "Establishes, manages, terminates connections",
    protocols := ["NetBIOS", "RPC", "SQL"] },
  { number := 4, name := "Transport Layer",
    description := "Reliable data transfer, error recovery",
    protocols := ["TCP", "UDP", "SCTP"] },
  { number := 3, name := "Network Layer",
    description := "Routing, logical addressing",
    protocols := ["IPv6", "IPv4", "ICMPv6", "OSPF"],
    isFocusLayer := true },
  { number := 2, name := "Data Link Layer",
    description := "Node-to-node delivery, error detection",
    protocols := ["Ethernet", "Wi-Fi", "PPP"] },
  { number := 1, name := "Physical Layer",
    description := "Physical transmission of raw bits",
    protocols := ["Cable", "Fiber", "Radio waves"] }]

end IPv6Page

namespace IPv4Page

/-- The `ipv4Fields` dataset of the first document of src/unnamed/part_000. -/
def ipv4Fields : List HeaderField := [
  { name := "Version", bits := "4 bits",
    description := "IP version number",
    purpose := "Identifies the IP version being used. For IPv4, this value is always 4.",
    «example» := some ("0100 (binary) = 4 (decimal)") },
  { name := "IHL", bits := "4 bits",
    description := "Internet Header Length",
    purpose := "Specifies the length of the IP header in 32-bit words (4-byte units). Minimum value is 5 (20 bytes) for a header with no options. Maximum is 15 (60 bytes).",
    «example» := some ("5 = 20 bytes (no options), 8 = 32 bytes (12 bytes of options)") },
  { name := "Type of Service", bits := "8 bits",
    description := "Type of Service (DSCP + ECN)",
    purpose := "Defines how the packet should be handled in terms of priority, delay, throughput, and reliability. First 6 bits are DSCP, last 2 bits are ECN.",
    «example» := some ("00000000 = Normal service, 10111000 = Expedited Forwarding") },
  { name := "Total Length", bits := "16 bits",
    description := "Total packet length",
    purpose := "Specifies the total length of the IP packet (header + data) in bytes. Maximum is 65,535 bytes.",
    «example» := some ("1500 bytes for standard Ethernet frame") },
  { name := "Identification", bits := "16 bits",
    description := "Unique packet identifier",
    purpose := "Uniquely identifies fragments of an original IP packet. All fragments have the same ID.",
    «example» := some ("12345 (decimal)") },
  { name := "Flags", bits := "3 bits",
    description := "Control fragmentation",
    purpose := "Controls packet fragmentation: Reserved bit (must be 0), Don\x27t Fragment (DF), More Fragments (MF).",
    «example» := some ("010 = Don\x27t Fragment set") },
  { name := "Fragment Offset", bits := "13 bits",
    description := "Fragment position",
    purpose := "Indicates where this fragment belongs in the original packet, measured in 8-byte units.",
    «example» := some ("0 for first fragment") },
  { name := "Time to Live", bits := "8 bits",
    description := "Maximum hops allowed",
    purpose := "Prevents infinite routing loops by limiting packet lifetime. Decremented at each hop.",
    «example» := some ("64 hops (common default)") },
  { name := "Protocol", bits := "8 bits",
    description := "Next layer protocol",
    purpose := "Identifies the protocol used in the data portion (TCP=6, UDP=17, ICMP=1).",
    «example» := some ("6 = TCP, 17 = UDP") },
  { name := "Header Checksum", bits := "16 bits",
    description := "Error detection",
    purpose := "Provides error detection for the header only. Recalculated at each hop due to TTL changes.",
    «example» := some ("Calculated using one\x27s complement") },
  { name := "Source IP Address", bits := "32 bits",
    description := "Sender\x27s IP address",
    purpose := "The IP address of the device sending the packet.",
    «example» := some ("192.168.1.100") },
  { name := "Destination IP Address", bits := "32 bits",
    description := "Receiver\x27s IP address",
    purpose := "The IP address of the device that should receive the packet.",
    «example» := some ("8.8.8.8") },
  { name := "Options", bits := "0-40 bytes",
    description := "Optional header fields with padding",
    purpose := "Variable-length field for additional IP options like source routing, timestamps, or security. Must be padded to ensure the header length is a multiple of 32 bits.",
    «example» := some ("Usually empty in most packets. When present, often includes padding to align to 32-bit boundary.") }]

/-- The `osiLayers` dataset of the first document of src/unnamed/part_000
(`isIPv4Layer` on layer 3). -/
def osiLayers : List OSILayer := [
  { number := 7, name := "Application Layer",
    description := "Network services to applications",
    protocols := ["HTTP", "HTTPS", "FTP", "SMTP", "DNS"] },
  { number := 6, name := "Presentation Layer",
    description := "Data translation, encryption, compression",
    protocols := ["SSL/TLS", "JPEG", "GIF", "ASCII"] },
  { number := 5, name := "Session Layer",
    description := "Establishes, manages, terminates connections",
    protocols := ["NetBIOS", "RPC", "SQL"] },
  { number := 4, name := "Transport Layer",
    description := "Reliable data transfer, error recovery",
    protocols := ["TCP", "UDP", "SCTP"] },
  { number := 3, name := "Network Layer",
    description := "Routing, logical addressing",
    protocols := ["IPv4", "IPv6", "ICMP", "OSPF"],
    isFocusLayer := true },
  { number := 2, name := "Data Link Layer",
    description := "Node-to-node delivery, error detection",
    protocols := ["Ethernet", "Wi-Fi", "PPP"] },
  { number := 1, name := "Physical Layer",
    description := "Physical transmission of raw bits",
    protocols := ["Cable", "Fiber", "Radio waves"] }]

end IPv4Page

namespace IPv6PageB

/-- The `ipv6Fields` dataset of the second document of src/unnamed/part_000. -/
def ipv6Fields : List HeaderField := [
  { name := "Version", bits := "4 bits",
    description := "IP version number",
    purpose := "Identifies the IP version being used. For IPv6, this value is always 6.",
    «example» := some ("0110 (binary) = 6 (decimal)") },
  { name := "Traffic Class", bits := "8 bits",
    description := "Quality of Service (QoS) marking",
    purpose := "Similar to the Type of Service field in IPv4. Used for packet prioritization and congestion control. First 6 bits are DSCP, last 2 bits are ECN.",
    «example» := some ("00000000 = Normal service, 10111000 = Expedited Forwarding") },
  { name := "Flow Label", bits := "20 bits",
    description := "Packet flow identification",
    purpose := "Identifies packets belonging to the same flow, allowing routers to process related packets together. Helps with quality of service and real-time data.",
    «example» := some ("0x12345 (a unique flow identifier)") },
  { name := "Payload Length", bits := "16 bits",
    description := "Size of payload",
    purpose := "Specifies the length of the payload (data after the IPv6 header) in bytes. Does not include the header size.",
    «example» := some ("1440 bytes (typical payload size)") },
  { name := "Next Header", bits := "8 bits",
    description := "Next header type",
    purpose := "Identifies the type of header immediately following the IPv6 header (e.g., TCP, UDP, or an Extension Header).",
    «example» := some ("6 = TCP, 17 = UDP, 58 = ICMPv6") },
  { name := "Hop Limit", bits := "8 bits",
    description := "Maximum hops allowed",
    purpose := "Similar to TTL in IPv4. Prevents infinite routing loops by limiting packet lifetime. Decremented at each hop.",
    «example» := some ("64 hops (common default)") },
  { name := "Source Address", bits := "128 bits",
    description := "Sender\x27s IPv6 address",
    purpose := "The IPv6 address of the device sending the packet.",
    «example» := some ("2001:0db8:85a3:0000:0000:8a2e:0370:7334") },
  { name := "Destination Address", bits := "128 bits",
    description := "Receiver\x27s IPv6 address",
    purpose := "The IPv6 address of the device that should receive the packet.",
    «example» := some ("2001:4860:4860::8888 (Google\x27s public DNS)") },
  { name := "Extension Headers", bits := "Variable",
    description := "Optional headers",
    purpose := "Provides additional functionality beyond the main header. Can include Hop-by-Hop Options, Routing, Fragment, Destination Options, Authentication, and Encapsulating Security Payload.",
    «example» := some ("Authentication Header (AH), Encapsulating Security Payload (ESP)") }]

/-- The `osiLayers` dataset of the second document of src/unnamed/part_000
(`isIPv6Layer` on layer 3). -/
def osiLayers : List OSILayer := [
  { number := 7, name := "Application Layer",
    description := "Network services to applications",
    protocols := ["HTTP", "HTTPS", "FTP", "SMTP", "DNS"] },
  { number := 6, name := "Presentation Layer",
    description := "Data translation, encryption, compression",
    protocols := ["SSL/TLS", "JPEG", "GIF", "ASCII"] },
  { number := 5, name := "Session Layer",
    description := "Establishes, manages, terminates connections",
    protocols := ["NetBIOS", "RPC", "SQL"] },
  { number := 4, name := "Transport Layer",
    description := "Reliable data transfer, error recovery",
    protocols := ["TCP", "UDP", "SCTP"] },
  { number := 3, name := "Network Layer",
    description := "Routing, logical addressing",
    protocols := ["IPv6", "IPv4", "ICMPv6", "OSPF"],
    isFocusLayer := true },
  { number := 2, name := "Data Link Layer",
    description := "Node-to-node delivery, error detection",
    protocols := ["Ethernet", "Wi-Fi", "PPP"] },
  { number := 1, name := "Physical Layer",
    description := "Physical transmission of raw bits",
    protocols := ["Cable", "Fiber", "Radio waves"] }]

end IPv6PageB

namespace IPv4Simple

/-- The `ipv4Fields` dataset of src/unnamed/part_001. -/
def ipv4Fields : List HeaderField := [
  { name := "Version", bits := "4 bits",
    description := "IP version number",
    purpose := "Identifies the IP version being used. For IPv4, this value is always 4.",
    «example» := some ("0100 (binary) = 4 (decimal)") },
  { name := "IHL", bits := "4 bits",
    description := "Internet Header Length",
    purpose := "Specifies the length of the IP header in 32-bit words. Minimum value is 5 (20 bytes).",
    «example» := some ("0101 (binary) = 5 words = 20 bytes") },
  { name := "Type of Service", bits := "8 bits",
    description := "Quality of Service parameters",
    purpose := "Defines the priority and type of service for the packet. Used for QoS routing decisions.",
    «example» := some ("00000000 = Normal service") },
  { name := "Total Length", bits := "16 bits",
    description := "Total packet length",
    purpose := "Specifies the total length of the IP packet (header + data) in bytes. Maximum is 65,535 bytes.",
    «example» := some ("1500 bytes for standard Ethernet frame") },
  { name := "Identification", bits := "16 bits",
    description := "Unique packet identifier",
    purpose := "Uniquely identifies fragments of an original IP packet. All fragments have the same ID.",
    «example» := some ("12345 (decimal)") },
  { name := "Flags", bits := "3 bits",
    description := "Control fragmentation",
    purpose := "Controls packet fragmentation: Reserved bit, Don\x27t Fragment (DF), More Fragments (MF).",
    «example» := some ("010 = Don\x27t Fragment set") },
  { name := "Fragment Offset", bits := "13 bits",
    description := "Fragment position",
    purpose := "Indicates where this fragment belongs in the original packet, measured in 8-byte units.",
    «example» := some ("0 for first fragment") },
  { name := "Time to Live", bits := "8 bits",
    description := "Maximum hops allowed",
    purpose := "Prevents infinite routing loops by limiting packet lifetime. Decremented at each hop.",
    «example» := some ("64 hops (common default)") },
  { name := "Protocol", bits := "8 bits",
    description := "Next layer protocol",
    purpose := "Identifies the protocol used in the data portion (TCP=6, UDP=17, ICMP=1).",
    «example» := some ("6 = TCP, 17 = UDP") },
  { name := "Header Checksum", bits := "16 bits",
    description := "Error detection",
    purpose := "Provides error detection for the header only. Recalculated at each hop due to TTL changes.",
    «example» := some ("Calculated using one\x27s complement") },
  { name := "Source IP Address", bits := "32 bits",
    description := "Sender\x27s IP address",
    purpose := "The IP address of the device sending the packet.",
    «example» := some ("192.168.1.100") },
  { name := "Destination IP Address", bits := "32 bits",
    description := "Receiver\x27s IP address",
    purpose := "The IP address of the device that should receive the packet.",
    «example» := some ("8.8.8.8") },
  { name := "Options", bits := "0-40 bytes",
    description := "Optional header fields",
    purpose := "Variable-length field for additional IP options like source routing or timestamps.",
    «example» := some ("Usually empty in most packets") }]

/-- The `osiLayers` dataset of src/unnamed/part_001 (`isIPv4Layer` on
layer 3). -/
def osiLayers : List OSILayer := [
  { number := 7, name := "Application Layer",
    description := "Network services to applications",
    protocols := ["HTTP", "HTTPS", "FTP", "SMTP", "DNS"] },
  { number := 6, name := "Presentation Layer",
    description := "Data translation, encryption, compression",
    protocols := ["SSL/TLS", "JPEG", "GIF", "ASCII"] },
  { number := 5, name := "Session Layer",
    description := "Establishes, manages, terminates connections",
    protocols := ["NetBIOS", "RPC", "SQL"] },
  { number := 4, name := "Transport Layer",
    description := "Reliable data transfer, error recovery",
    protocols := ["TCP", "UDP", "SCTP"] },
  { number := 3, name := "Network Layer",
    description := "Routing, logical addressing",
    protocols := ["IPv4", "IPv6", "ICMP", "OSPF"],
    isFocusLayer := true },
  { number := 2, name := "Data Link Layer",
    description := "Node-to-node delivery, error detection",
    protocols := ["Ethernet", "Wi-Fi", "PPP"] },
  { number := 1, name := "Physical Layer",
    description := "Physical transmission of raw bits",
    protocols := ["Cable", "Fiber", "Radio waves"] }]

end IPv4Simple

/-! Helper lemmas about the derived views, generic in the dataset. -/

/-- After hovering a name, a rendered field card is highlighted exactly when
it carries that name. -/
lemma fieldCards_highlight_iff {fields : List HeaderField} {s : AppState}
    {nm : String} {c : FieldCard}
    (hc : c ∈ fieldCards fields (setHoveredField (some nm) s)) :
    c.highlighted = true ↔ c.name = nm := by
  simp only [fieldCards, setHoveredField, List.mem_map] at hc
  obtain ⟨f, _, rfl⟩ := hc
  simp only [beq_iff_eq, Option.some.injEq]
  exact eq_comm

/-- Every rendered field card carries the name of some dataset field. -/
lemma fieldCards_name_mem {fields : List HeaderField} {s : AppState}
    {c : FieldCard} (hc : c ∈ fieldCards fields s) :
    c.name ∈ fields.map HeaderField.name := by
  simp only [fieldCards, List.mem_map] at hc
  obtain ⟨f, hf, rfl⟩ := hc
  exact List.mem_map.mpr ⟨f, hf, rfl⟩

/-- Hovering a name present in the dataset highlights that field card. -/
lemma fieldCards_exists_hovered {fields : List HeaderField} {s : AppState}
    {nm : String} (h : nm ∈ fields.map HeaderField.name) :
    ∃ c ∈ fieldCards fields (setHoveredField (some nm) s),
      c.highlighted = true ∧ c.name = nm := by
  simp only [List.mem_map] at h
  obtain ⟨f, hf, rfl⟩ := h
  simp only [fieldCards, setHoveredField, List.mem_map]
  exact ⟨_, ⟨f, hf, rfl⟩, by simp, rfl⟩

/-- When the field names of the dataset are pairwise distinct, no two
distinct rendered cards are highlighted at the same time, in any state. -/
lemma fieldCards_atMostOne {fields : List HeaderField}
    (hnd : (fields.map HeaderField.name).Nodup) (t : AppState) :
    (fieldCards fields t).Pairwise
      (fun c d => c.highlighted = true → d.highlighted = true → False) := by
  have hnd' : (fields.map HeaderField.name).Pairwise (fun a b => a ≠ b) := hnd
  rw [List.pairwise_map] at hnd'
  unfold fieldCards
  rw [List.pairwise_map]
  refine hnd'.imp ?_
  intro f g hne hf hg
  have h1 : t.hoveredField = some f.name := eq_of_beq hf
  have h2 : t.hoveredField = some g.name := eq_of_beq hg
  rw [h1] at h2
  exact hne (Option.some.inj h2)

/-- Hovering a name absent from the dataset highlights nothing. -/
lemma fieldCards_none_highlighted {fields : List HeaderField} {s : AppState}
    {nm : String} (h : nm ∉ fields.map HeaderField.name) :
    ∀ c ∈ fieldCards fields (setHoveredField (some nm) s),
      c.highlighted = false := by
  intro c hc
  by_contra hb
  have htrue : c.highlighted = true := by
    cases hhl : c.highlighted
    · exact absurd hhl hb
    · rfl
  have : c.name = nm := (fieldCards_highlight_iff hc).mp htrue
  exact h (this ▸ fieldCards_name_mem hc)

/-- Hovering a name absent from the dataset yields an empty detail panel. -/
lemma fieldDetail_eq_none {fields : List HeaderField} {s : AppState}
    {nm : String} (h : nm ∉ fields.map HeaderField.name) :
    fieldDetail fields (setHoveredField (some nm) s) = none := by
  simp only [fieldDetail, setHoveredField]
  rw [List.find?_eq_none]
  intro f hf hbeq
  exact h (List.mem_map.mpr ⟨f, hf, eq_of_beq hbeq⟩)

/-- Hovering a layer number absent from the dataset scales no layer row. -/
lemma osiModelView_none_scaled {layers : List OSILayer} {s : AppState}
    {n : Nat} (h : n ∉ layers.map OSILayer.number) :
    ∀ lc ∈ osiModelView layers (setHoveredLayer (some n) s),
      lc.scaled = false := by
  intro lc hlc
  simp only [osiModelView, setHoveredLayer, List.mem_map] at hlc
  obtain ⟨l, hl, rfl⟩ := hlc
  simp only [beq_eq_false_iff_ne, ne_eq, Option.some.injEq]
  intro he
  exact h (he ▸ List.mem_map.mpr ⟨l, hl, rfl⟩)

/-- The sending list is the reverse of the receiving list rendered with the
same label: both are pure re-orderings of the same static sequence. -/
lemma sendingView_eq_reverse {layers : List OSILayer} {lbl : String}
    {s : AppState} :
    sendingView layers lbl s = (receivingView layers lbl s).reverse := by
  simp [sendingView, receivingView, List.map_reverse]

/-! Claim theorems. -/

/-- C1: for every HeaderField name present in the active dataset (the IPv6
page or the first IPv4 page), `setHoveredField name` followed by deriving
the field-explanations view marks exactly that field\x27s card as
highlighted and every other card as normal, and in any state at most one
card is highlighted. -/
theorem c1_hovered_field_highlighted_exclusively
    (fields : List HeaderField) (s : AppState) (nm : String)
    (hfields : fields = IPv6Page.ipv6Fields ∨ fields = IPv4Page.ipv4Fields)
    (hnm : nm ∈ fields.map HeaderField.name) :
    (∀ c ∈ fieldCards fields (setHoveredField (some nm) s),
        c.highlighted = true ↔ c.name = nm)
    ∧ (∃ c ∈ fieldCards fields (setHoveredField (some nm) s),
        c.highlighted = true ∧ c.name = nm)
    ∧ (∀ t : AppState, (fieldCards fields t).Pairwise
        (fun c d => c.highlighted = true → d.highlighted = true → False)) := by
  refine ⟨fun c hc => fieldCards_highlight_iff hc,
    fieldCards_exists_hovered hnm,
    fun t => fieldCards_atMostOne ?_ t⟩
  rcases hfields with rfl | rfl
  · decide
  · decide

/-- Witness for C1 at the IPv6 dataset and the name "Hop Limit". -/
theorem c1_hovered_field_highlighted_exclusively_witness :
    (IPv6Page.ipv6Fields = IPv6Page.ipv6Fields ∨
      IPv6Page.ipv6Fields = IPv4Page.ipv4Fields)
    ∧ ("Hop Limit" ∈ IPv6Page.ipv6Fields.map HeaderField.name)
    ∧ ((∀ c ∈ fieldCards IPv6Page.ipv6Fields
          (setHoveredField (some ("Hop Limit")) ⟨true, none, none⟩),
        c.highlighted = true ↔ c.name = "Hop Limit")
      ∧ (∃ c ∈ fieldCards IPv6Page.ipv6Fields
          (setHoveredField (some ("Hop Limit")) ⟨true, none, none⟩),
        c.highlighted = true ∧ c.name = "Hop Limit")
      ∧ (∀ t : AppState, (fieldCards IPv6Page.ipv6Fields t).Pairwise
          (fun c d => c.highlighted = true → d.highlighted = true → False))) :=
  ⟨Or.inl rfl, by decide,
    c1_hovered_field_highlighted_exclusively IPv6Page.ipv6Fields
      ⟨true, none, none⟩ ("Hop Limit") (Or.inl rfl) (by decide)⟩

/-- C2: evaluation of the integration section as the code renders it, for
every state.  The sending list (`osiLayers.slice().reverse()`) comes out in
ascending layer order 1..7 and the receiving list (`osiLayers` in stored
order) in descending order 7..1 - the opposite of the claimed directions,
and of the headings "Sending (Top to Bottom)" / "Receiving (Bottom to
Top)" in the code itself.  The remaining conjuncts show the parts of the
claim that do hold: the focus layer carries the "Header Added" label on
the sending list and the "Header Processed" label on the receiving list,
and both lists are pure re-orderings (reverses) of the same sequence. -/
theorem c2_integration_lists_as_rendered (s : AppState) :
    ((sendingView IPv4Page.osiLayers ("← IPv4 Header Added") s).map
        IntegrationEntry.number = [1, 2, 3, 4, 5, 6, 7])
    ∧ ((receivingView IPv4Page.osiLayers ("← IPv4 Header Processed") s).map
        IntegrationEntry.number = [7, 6, 5, 4, 3, 2, 1])
    ∧ ((sendingView IPv6Page.osiLayers ("← IPv6 Header Added") s).map
        IntegrationEntry.number = [1, 2, 3, 4, 5, 6, 7])
    ∧ ((receivingView IPv6Page.osiLayers ("← IPv6 Header Processed") s).map
        IntegrationEntry.number = [7, 6, 5, 4, 3, 2, 1])
    ∧ ((sendingView IPv4Page.osiLayers ("← IPv4 Header Added") s).filter
        (fun e => e.directionalLabel.isSome)
      = [⟨3, "Network Layer", some ("← IPv4 Header Added")⟩])
    ∧ ((receivingView IPv4Page.osiLayers ("← IPv4 Header Processed") s).filter
        (fun e => e.directionalLabel.isSome)
      = [⟨3, "Network Layer", some ("← IPv4 Header Processed")⟩])
    ∧ sendingView IPv4Page.osiLayers ("← IPv4 Header Added") s
      = (receivingView IPv4Page.osiLayers ("← IPv4 Header Added") s).reverse :=
  ⟨rfl, rfl, rfl, rfl, rfl, rfl, sendingView_eq_reverse⟩

/-- C3: an identifier absent from the active dataset degrades to an empty
derivation: the simplified IPv4 page\x27s detail panel content is `none`
(the `find` lookup is total and merely returns nothing), no field card of
the IPv6 page is highlighted, and no OSI layer row is scale-emphasized. -/
theorem c3_unresolved_lookup_degrades (s : AppState) (x : String) (n : Nat)
    (hx1 : x ∉ IPv4Simple.ipv4Fields.map HeaderField.name)
    (hx2 : x ∉ IPv6Page.ipv6Fields.map HeaderField.name)
    (hn : n ∉ IPv6Page.osiLayers.map OSILayer.number) :
    fieldDetail IPv4Simple.ipv4Fields (setHoveredField (some x) s) = none
    ∧ (∀ c ∈ fieldCards IPv6Page.ipv6Fields (setHoveredField (some x) s),
        c.highlighted = false)
    ∧ (∀ lc ∈ osiModelView IPv6Page.osiLayers (setHoveredLayer (some n) s),
        lc.scaled = false) :=
  ⟨fieldDetail_eq_none hx1, fieldCards_none_highlighted hx2,
    osiModelView_none_scaled hn⟩

/-- Witness for C3 at the unknown field name "Checksum" and layer 42. -/
theorem c3_unresolved_lookup_degrades_witness :
    ("Checksum" ∉ IPv4Simple.ipv4Fields.map HeaderField.name)
    ∧ ("Checksum" ∉ IPv6Page.ipv6Fields.map HeaderField.name)
    ∧ (42 ∉ IPv6Page.osiLayers.map OSILayer.number)
    ∧ (fieldDetail IPv4Simple.ipv4Fields
        (setHoveredField (some ("Checksum")) ⟨false, none, none⟩) = none
      ∧ (∀ c ∈ fieldCards IPv6Page.ipv6Fields
          (setHoveredField (some ("Checksum")) ⟨false, none, none⟩),
          c.highlighted = false)
      ∧ (∀ lc ∈ osiModelView IPv6Page.osiLayers
          (setHoveredLayer (some 42) ⟨false, none, none⟩),
          lc.scaled = false)) :=
  ⟨by decide, by decide, by decide,
    c3_unresolved_lookup_degrades ⟨false, none, none⟩ ("Checksum") 42
      (by decide) (by decide) (by decide)⟩

/-- C4 counterexample: in the IPv6 page dataset, the unique focus layer
(number 3) has protocol list ["IPv6", "IPv4", "ICMPv6", "OSPF"], which
does not contain "ICMP" - refuting the claim that every variant\x27s
layer-3 protocol list includes "ICMP". -/
theorem c4_counterexample :
    IPv6Page.osiLayers.map
        (fun l => (l.number, l.isFocusLayer, l.protocols.contains ("ICMP")))
      = [(7, false, false), (6, false, false), (5, false, false),
         (4, false, false), (3, true, false), (2, false, false),
         (1, false, false)] := by decide

/-- C4 amended: in every variant\x27s OSI layer dataset the layer with
number 3 carries the focus flag and its protocol list includes "IPv4"; the
IPv4 variants additionally include "ICMP", while the IPv6 variants include
"ICMPv6" instead. -/
theorem c4_amended_layer3_focus_protocols :
    ((IPv4Page.osiLayers.filter (fun l => l.number == 3)).map
        (fun l => (l.isFocusLayer, l.protocols.contains ("IPv4"),
          l.protocols.contains ("ICMP")))
      = [(true, true, true)])
    ∧ ((IPv4Simple.osiLayers.filter (fun l => l.number == 3)).map
        (fun l => (l.isFocusLayer, l.protocols.contains ("IPv4"),
          l.protocols.contains ("ICMP")))
      = [(true, true, true)])
    ∧ ((IPv6Page.osiLayers.filter (fun l => l.number == 3)).map
        (fun l => (l.isFocusLayer, l.protocols.contains ("IPv4"),
          l.protocols.contains ("ICMPv6")))
      = [(true, true, true)])
    ∧ ((IPv6PageB.osiLayers.filter (fun l => l.number == 3)).map
        (fun l => (l.isFocusLayer, l.protocols.contains ("IPv4"),
          l.protocols.contains ("ICMPv6")))
      = [(true, true, true)]) := by decide

/-- C5: in each variant\x27s dataset exactly one of the seven layers
(numbers 7 down to 1) carries the focus flag; in the integration views the
labelled focus entry is the same layer (number 3, "Network Layer") on both
the sending and the receiving list, and the two lists are reverses of one
another, so only the position differs. -/
theorem c5_unique_focus_layer_shared_across_views (s : AppState) :
    (IPv6Page.osiLayers.countP (fun l => l.isFocusLayer) = 1
      ∧ IPv4Page.osiLayers.countP (fun l => l.isFocusLayer) = 1
      ∧ IPv6PageB.osiLayers.countP (fun l => l.isFocusLayer) = 1
      ∧ IPv4Simple.osiLayers.countP (fun l => l.isFocusLayer) = 1)
    ∧ (IPv6Page.osiLayers.map OSILayer.number = [7, 6, 5, 4, 3, 2, 1]
      ∧ IPv4Page.osiLayers.map OSILayer.number = [7, 6, 5, 4, 3, 2, 1]
      ∧ IPv6PageB.osiLayers.map OSILayer.number = [7, 6, 5, 4, 3, 2, 1]
      ∧ IPv4Simple.osiLayers.map OSILayer.number = [7, 6, 5, 4, 3, 2, 1])
    ∧ (((sendingView IPv6Page.osiLayers ("← IPv6 Header Added") s).filter
          (fun e => e.directionalLabel.isSome)).map (fun e => (e.number, e.name))
        = [(3, "Network Layer")]
      ∧ ((receivingView IPv6Page.osiLayers ("← IPv6 Header Processed") s).filter
          (fun e => e.directionalLabel.isSome)).map (fun e => (e.number, e.name))
        = [(3, "Network Layer")]
      ∧ ((sendingView IPv4Page.osiLayers ("← IPv4 Header Added") s).filter
          (fun e => e.directionalLabel.isSome)).map (fun e => (e.number, e.name))
        = [(3, "Network Layer")]
      ∧ ((receivingView IPv4Page.osiLayers ("← IPv4 Header Processed") s).filter
          (fun e => e.directionalLabel.isSome)).map (fun e => (e.number, e.name))
        = [(3, "Network Layer")])
    ∧ (sendingView IPv6Page.osiLayers ("← IPv6 Header Added") s
        = (receivingView IPv6Page.osiLayers ("← IPv6 Header Added") s).reverse
      ∧ sendingView IPv4Page.osiLayers ("← IPv4 Header Added") s
        = (receivingView IPv4Page.osiLayers ("← IPv4 Header Added") s).reverse) :=
  ⟨⟨rfl, rfl, rfl, rfl⟩, ⟨rfl, rfl, rfl, rfl⟩, ⟨rfl, rfl, rfl, rfl⟩,
    sendingView_eq_reverse, sendingView_eq_reverse⟩

/-- C6: the "OSI Model" tab always renders the seven layers in the fixed
descending order 7..1, and the focus layer (number 3) always receives the
distinct styling and the dedicated badge, for every value of the hover
state. -/
theorem c6_osi_model_fixed_order_and_focus_badge (s : AppState) :
    ((osiModelView IPv6Page.osiLayers s).map
        (fun lc => (lc.number, lc.focusStyled, lc.focusBadge))
      = [(7, false, false), (6, false, false), (5, false, false),
         (4, false, false), (3, true, true), (2, false, false),
         (1, false, false)])
    ∧ ((osiModelView IPv4Page.osiLayers s).map
        (fun lc => (lc.number, lc.focusStyled, lc.focusBadge))
      = [(7, false, false), (6, false, false), (5, false, false),
         (4, false, false), (3, true, true), (2, false, false),
         (1, false, false)]) :=
  ⟨rfl, rfl⟩

/-- C7: the derived integration view does not depend on `hoveredField`:
two states that agree on the theme flag and the hovered layer - that is,
differ at most in the hovered field name - yield identical integration
views, in both page variants. -/
theorem c7_integration_independent_of_hovered_field (s₁ s₂ : AppState)
    (_hdark : s₁.isDarkMode = s₂.isDarkMode)
    (_hlayer : s₁.hoveredLayer = s₂.hoveredLayer) :
    integrationView IPv6Page.osiLayers
        ("← IPv6 Header Added") ("← IPv6 Header Processed") s₁
      = integrationView IPv6Page.osiLayers
        ("← IPv6 Header Added") ("← IPv6 Header Processed") s₂
    ∧ integrationView IPv4Page.osiLayers
        ("← IPv4 Header Added") ("← IPv4 Header Processed") s₁
      = integrationView IPv4Page.osiLayers
        ("← IPv4 Header Added") ("← IPv4 Header Processed") s₂ :=
  ⟨rfl, rfl⟩

/-- Witness for C7 at two concrete states differing only in the hovered
field name. -/
theorem c7_integration_independent_of_hovered_field_witness :
    ((AppState.mk true (some ("Version")) none).isDarkMode
        = (AppState.mk true none none).isDarkMode)
    ∧ ((AppState.mk true (some ("Version")) none).hoveredLayer
        = (AppState.mk true none none).hoveredLayer)
    ∧ (integrationView IPv6Page.osiLayers
          ("← IPv6 Header Added") ("← IPv6 Header Processed")
          (AppState.mk true (some ("Version")) none)
        = integrationView IPv6Page.osiLayers
          ("← IPv6 Header Added") ("← IPv6 Header Processed")
          (AppState.mk true none none)
      ∧ integrationView IPv4Page.osiLayers
          ("← IPv4 Header Added") ("← IPv4 Header Processed")
          (AppState.mk true (some ("Version")) none)
        = integrationView IPv4Page.osiLayers
          ("← IPv4 Header Added") ("← IPv4 Header Processed")
          (AppState.mk true none none)) :=
  ⟨rfl, rfl,
    c7_integration_independent_of_hovered_field
      (AppState.mk true (some ("Version")) none)
      (AppState.mk true none none) rfl rfl⟩

/-- C8: `toggleTheme` is an involution on `isDarkMode`; each single call
flips the flag and two calls restore it, from every starting state. -/
theorem c8_toggleTheme_involution (s : AppState) :
    (toggleTheme (toggleTheme s)).isDarkMode = s.isDarkMode
    ∧ (toggleTheme s).isDarkMode = !s.isDarkMode
    ∧ toggleTheme (toggleTheme s) = s := by
  refine ⟨?_, rfl, ?_⟩
  · simp [toggleTheme]
  · simp [toggleTheme]

/-- C9: `setHoveredField` stores its argument verbatim, for every string,
whether or not it names a field of any dataset; clearing stores `none`. -/
theorem c9_setHoveredField_stores_verbatim (s : AppState) (x : String) :
    (setHoveredField (some x) s).hoveredField = some x
    ∧ (setHoveredField none s).hoveredField = none :=
  ⟨rfl, rfl⟩

/-- C10: each state setter modifies only its own component: `toggleTheme`
preserves both hover fields, `setHoveredField` preserves the theme flag and
the hovered layer, and `setHoveredLayer` preserves the theme flag and the
hovered field. -/
theorem c10_setters_frame (s : AppState) (x : Option String) (n : Option Nat) :
    ((toggleTheme s).hoveredField = s.hoveredField
      ∧ (toggleTheme s).hoveredLayer = s.hoveredLayer)
    ∧ ((setHoveredField x s).isDarkMode = s.isDarkMode
      ∧ (setHoveredField x s).hoveredLayer = s.hoveredLayer)
    ∧ ((setHoveredLayer n s).isDarkMode = s.isDarkMode
      ∧ (setHoveredLayer n s).hoveredField = s.hoveredField) :=
  ⟨⟨rfl, rfl⟩, ⟨rfl, rfl⟩, ⟨rfl, rfl⟩⟩
